import Mathlib

/-!
# A verification model of the `morgan-json` request logger (`src/index.js`)

This file shallowly embeds the parts of `src/index.js` that the verified
properties speak about:

* the JavaScript value fragment the token extractors produce, together with
  JS truthiness and string coercion (used by the generated
  `(tokens[name](req, res, arg) || "-")` expressions);
* the shared `exports` namespace to which both `exports.token` and
  `exports.format` write (lines 141-158), and the format-resolution
  expression `exports[options.format] || options.format || exports.default`
  (line 46);
* the format compiler `compile` (lines 123-129): quote escaping, the
  `:([-\w]\x7b2,\x7d)(?:\[([^\]]+)\])?` token scan, and the semantics of the
  generated function body (string-literal parsing at `new Function` time,
  token application with `|| "-"` fallback at render time);
* the per-cycle `logRequest` completion handler (lines 85-101): listener
  removal, the `skip` check, the `null == line` check, and the
  `stream.write(line + '\n')` call, driven by `finish`/`close` events;
* the optional batching buffer (lines 56-77).

External collaborators (the HTTP framework, the wall clock, `JSON.stringify`,
`escape`, and the byte sink) are modelled as abstract inputs, as the design
treats them as out of scope.  Built-in tokens whose value depends on the
ambient clock or on captured socket/body state (`date`, `response-time`,
`remote-addr`, `payload`, `res-body`, and the hand-written `dev` renderer)
are outside every verified property and are not embedded.
-/

deriving instance DecidableEq for Except

/-- The fragment of JavaScript values that token extractors return:
`null`, `undefined`, strings, (integer) numbers and booleans. -/
inductive JSVal where
  | vNull
  | vUndefined
  | vStr (s : String)
  | vNum (n : Int)
  | vBool (b : Bool)
deriving DecidableEq

/-- JavaScript truthiness for `JSVal` (`null`, `undefined`, `""`, `0` and
`false` are falsy), as used by the `||` in the generated render code. -/
def jsTruthy : JSVal → Bool
  | JSVal.vNull => false
  | JSVal.vUndefined => false
  | JSVal.vStr s => s ≠ ""
  | JSVal.vNum n => n ≠ 0
  | JSVal.vBool b => b

/-- JavaScript string coercion of a `JSVal`, as performed by `+` when the
generated code concatenates a token's value into the log line. -/
def jsToStr : JSVal → String
  | JSVal.vNull => "null"
  | JSVal.vUndefined => "undefined"
  | JSVal.vStr s => s
  | JSVal.vNum n => toString n
  | JSVal.vBool b => if b then "true" else "false"

/-- JavaScript `a || b` on our value fragment. -/
def jsOr (a b : JSVal) : JSVal :=
  if jsTruthy a then a else b

/-- The request-object fields read by the embedded built-in tokens.
`none` models an absent (`undefined`) property. -/
structure Req where
  method : String
  url : String
  originalUrl : Option String := none
  headers : String → Option String := fun _ => none
  httpVersionMajor : Nat := 1
  httpVersionMinor : Nat := 1
deriving Inhabited

/-- The response-object fields read by the embedded built-in tokens.
`headers` models `res._headers`. -/
structure Res where
  statusCode : Int
  headersSent : Bool
  headers : String → Option String := fun _ => none
deriving Inhabited

/-- A token extractor `fn(req, res, arg)`.  A JavaScript extractor may throw;
a thrown exception is modelled as `Except.error ()`. -/
def Extractor : Type :=
  Req → Res → String → Except Unit JSVal

/-- A value stored in the shared `exports` namespace: a function (stored by
`exports.token`, or by `exports.format` for hand-written render functions
such as `dev`) or a template string (stored by `exports.format`). -/
inductive RegEntry where
  | efun (f : Extractor)
  | estr (s : String)

/-- The shared `exports` object, viewed as a mapping from property name to
stored value; `none` models an absent property (`undefined`). -/
def Registry : Type :=
  String → Option RegEntry

/-- Property assignment `exports[name] = e`. -/
def regSet (r : Registry) (name : String) (e : RegEntry) : Registry :=
  fun n => if n = name then some e else r n

/-- An `exports` object with no token or format properties. -/
def emptyRegistry : Registry := fun _ => none

/-- `exports.token(name, fn)` (line 141): assigns the extractor to
`exports[name]`. -/
def tokenReg (r : Registry) (name : String) (fn : Extractor) : Registry :=
  regSet r name (RegEntry.efun fn)

/-- `exports.format(name, fmt)` (line 155): assigns the format (template
string or function) to `exports[name]` — the same namespace `token` uses. -/
def formatReg (r : Registry) (name : String) (fmt : RegEntry) : Registry :=
  regSet r name fmt

/-- JavaScript truthiness of a stored `exports` property (a function is
always truthy; a string is truthy iff nonempty). -/
def entryTruthy : RegEntry → Bool
  | RegEntry.efun _ => true
  | RegEntry.estr s => s ≠ ""

/-- The format-resolution expression of line 46,
`exports[options.format] || options.format || exports.default`, for
`options.format` a string or absent.  An absent `options.format` is the
property key `"undefined"` under JavaScript key coercion, then falls
through (being `undefined`, hence falsy) to `exports.default`. -/
def resolveFmt (r : Registry) (fmtOpt : Option String) : Option RegEntry :=
  match fmtOpt with
  | none =>
    match r "undefined" with
    | some e => if entryTruthy e then some e else r "default"
    | none => r "default"
  | some name =>
    match r name with
    | some e =>
      if entryTruthy e then some e
      else if name = "" then r "default" else some (RegEntry.estr name)
    | none => if name = "" then r "default" else some (RegEntry.estr name)

/-- Lifts an optional string property to a `JSVal` (`none` ↦ `undefined`). -/
def optVal : Option String → JSVal
  | some s => JSVal.vStr s
  | none => JSVal.vUndefined

/-- Built-in token `url` (line 208): `req.originalUrl || req.url`. -/
def urlTok : Extractor :=
  fun req _ _ => Except.ok (jsOr (optVal req.originalUrl) (JSVal.vStr req.url))

/-- Built-in token `method` (line 216): `req.method`. -/
def methodTok : Extractor :=
  fun req _ _ => Except.ok (JSVal.vStr req.method)

/-- Built-in token `status` (line 240):
`res.headersSent ? res.statusCode : null`. -/
def statusTok : Extractor :=
  fun _ res _ =>
    Except.ok (if res.headersSent then JSVal.vNum res.statusCode else JSVal.vNull)

/-- Built-in token `referrer` (line 248):
`req.headers['referer'] || req.headers['referrer']`. -/
def referrerTok : Extractor :=
  fun req _ _ =>
    Except.ok (jsOr (optVal (req.headers "referer")) (optVal (req.headers "referrer")))

/-- Built-in token `http-version` (line 268):
`req.httpVersionMajor + '.' + req.httpVersionMinor`. -/
def httpVersionTok : Extractor :=
  fun req _ _ =>
    Except.ok (JSVal.vStr (toString req.httpVersionMajor ++ "." ++ toString req.httpVersionMinor))

/-- Built-in token `user-agent` (line 276): `req.headers['user-agent']`. -/
def userAgentTok : Extractor :=
  fun req _ _ => Except.ok (optVal (req.headers "user-agent"))

/-- Built-in token `req` (line 284): `req.headers[field.toLowerCase()]`. -/
def reqTok : Extractor :=
  fun req _ field => Except.ok (optVal (req.headers field.toLower))

/-- Built-in token `res` (line 292):
`(res._headers || \x7b\x7d)[field.toLowerCase()]`. -/
def resTok : Extractor :=
  fun _ res field => Except.ok (optVal (res.headers field.toLower))

/-- Template registered as format `default` (line 164). -/
def defaultFmt : String :=
  "\x7b\"address\": \":remote-addr\", \"date\": \":date\", \"method\": \":method\", \"url\": \":url\", \"httpVersion\": \"HTTP/:http-version\", \"status\": \":status\", \"contentLength\": \":res[content-length]\", \"referrer\": \":referrer\", \"userAgent\": \":user-agent\"\x7d"

/-- Template registered as format `short` (line 170). -/
def shortFmt : String :=
  "\x7b\"address\": \":remote-addr\", \"method\": \":method\", \"url\": \":url\", \"httpVersion\": \"HTTP/:http-version\", \"status\": \":status\", \"contentLength\": \":res[content-length]\", \"time\": \":response-time ms\", \"payload\": \":payload\", \"response\": \":res-body\"\x7d"

/-- Template registered as format `tiny` (line 176; it reproduces the
source's comma-for-colon separators verbatim). -/
def tinyFmt : String :=
  "\x7b\"method\": \":method\", \"url\": \":url\", \"status\", \":status\", \"contentLength\": \":res[content-length]\", \"time\", \":response-time ms\"\x7d"

/-- The `exports` namespace after the module-level `format`/`token`
registrations of lines 164-294, restricted to the embedded entries (the
clock-, socket- and body-dependent entries `dev`, `response-time`, `date`,
`remote-addr`, `payload` and `res-body` are outside every verified
property). -/
def baseRegistry : Registry :=
  tokenReg (tokenReg (tokenReg (tokenReg (tokenReg (tokenReg (tokenReg (tokenReg
    (formatReg (formatReg (formatReg emptyRegistry
      "default" (RegEntry.estr defaultFmt))
      "short" (RegEntry.estr shortFmt))
      "tiny" (RegEntry.estr tinyFmt))
    "url" urlTok)
    "method" methodTok)
    "status" statusTok)
    "referrer" referrerTok)
    "http-version" httpVersionTok)
    "user-agent" userAgentTok)
    "req" reqTok)
    "res" resTok

/-- Membership in the regex character class `[-\w]` (JavaScript `\w` is the
ASCII word characters). -/
def isWordDash (c : Char) : Bool :=
  c.isAlphanum || c = '_' || c = '-'

/-- A fragment of the generated function body: a literal string chunk (still
in its source-literal, quote-escaped spelling) or a token reference with its
interpolated argument text. -/
inductive Piece where
  | lit (s : String)
  | tok (name arg : String)
deriving DecidableEq

/-- The optional `(?:\[([^\]]+)\])?` part of the token regex: from the text
following the token name, an argument of one or more non-`]` characters
enclosed in brackets, with the rest of the input; `none` when the group does
not participate in the match. -/
def matchArg (l : List Char) : Option (List Char × List Char) :=
  match l with
  | '[' :: rest =>
    let inner := rest.takeWhile (fun c => c != ']')
    match rest.dropWhile (fun c => c != ']') with
    | ']' :: rest2 => if inner.isEmpty then none else some (inner, rest2)
    | _ => none
  | _ => none

/-- The global replace of `:([-\w]\x7b2,\x7d)(?:\[([^\]]+)\])?` on line 125,
splitting the (already quote-escaped) template into literal chunks and token
references.  `acc` holds the pending literal chunk in reverse.  When no
bracketed argument is present the callback's unmatched capture is
`undefined`, and its interpolation into `'"' + arg + '"'` produces the
argument text `"undefined"`.  The `fuel` argument only effects structural
termination; every call consumes at least one character, so the initial
fuel `l.length` is never exhausted. -/
def scanAux : Nat → List Char → List Char → List Piece
  | _, acc, [] => [Piece.lit (String.mk acc.reverse)]
  | 0, acc, l => [Piece.lit (String.mk (acc.reverse ++ l))]
  | fuel + 1, acc, c :: rest =>
    if c = ':' ∧ 2 ≤ (rest.takeWhile isWordDash).length then
      let name := String.mk (rest.takeWhile isWordDash)
      match matchArg (rest.dropWhile isWordDash) with
      | some (arg, rest2) =>
        Piece.lit (String.mk acc.reverse) :: Piece.tok name (String.mk arg)
          :: scanAux fuel [] rest2
      | none =>
        Piece.lit (String.mk acc.reverse) :: Piece.tok name "undefined"
          :: scanAux fuel [] (rest.dropWhile isWordDash)
    else
      scanAux fuel (c :: acc) rest

/-- Splits a quote-escaped template into pieces. -/
def scan (l : List Char) : List Piece :=
  scanAux l.length [] l

/-- `fmt.replace(/"/g, '\\"')` (line 124) on the character list. -/
def escQuotesL : List Char → List Char
  | [] => []
  | c :: rest => if c = '"' then '\\' :: '"' :: escQuotesL rest else c :: escQuotesL rest

/-- `fmt.replace(/"/g, '\\"')` (line 124). -/
def escQuotes (s : String) : String :=
  String.mk (escQuotesL s.data)

/-- The character denoted by the escape sequence `\c` in a JavaScript string
literal (single-character escapes; other characters escape to themselves). -/
def jsEscChar (c : Char) : Char :=
  match c with
  | 'n' => '\n'
  | 't' => '\t'
  | 'r' => '\x0d'
  | 'b' => '\x08'
  | 'f' => '\x0c'
  | 'v' => '\x0b'
  | '0' => '\x00'
  | _ => c

/-- Parses the body of a double-quoted JavaScript string literal, as `new
Function` (line 128) parses each literal chunk the compiler splices into the
generated source.  `none` models a chunk whose splicing does not form a
well-formed literal body — an unescaped line terminator, quote, or dangling
backslash — which derails the generated program's syntax (a `SyntaxError`
at compile time).  Numeric (`\xHH`, `\uHHHH`, octal) escapes are not
modelled; no property below exercises them. -/
def jsUnescapeAux : List Char → Option (List Char)
  | [] => some []
  | c :: rest =>
    if c = '\\' then
      match rest with
      | [] => none
      | d :: rest2 =>
        if d = '\n' then jsUnescapeAux rest2
        else (jsUnescapeAux rest2).map (fun l => jsEscChar d :: l)
    else if c = '\n' ∨ c = '\x0d' ∨ c = '"' then none
    else (jsUnescapeAux rest).map (fun l => c :: l)

/-- Parses the body of a double-quoted JavaScript string literal. -/
def jsUnescape (s : String) : Option String :=
  (jsUnescapeAux s.data).map String.mk

/-- A fragment of the compiled render function after `new Function` has
parsed the generated source: a literal chunk (escapes now interpreted) or a
token application `(tokens[name](req, res, arg) || "-")`. -/
inductive RPiece where
  | lit (s : String)
  | tok (name arg : String)
deriving DecidableEq, Repr

/-- Parsing of one generated fragment at `new Function` time: literal chunks
and interpolated argument texts are string-literal bodies in the generated
source and must parse as such. -/
def evalPiece : Piece → Except Unit RPiece
  | Piece.lit s =>
    match jsUnescape s with
    | some u => Except.ok (RPiece.lit u)
    | none => Except.error ()
  | Piece.tok n a =>
    match jsUnescape a with
    | some u => Except.ok (RPiece.tok n u)
    | none => Except.error ()

/-- `compile(fmt)` (lines 123-129): escape quotes, split on the token regex,
and parse the generated source.  `Except.error ()` models the
`SyntaxError` that `new Function` raises on a malformed generated source. -/
def compile (fmt : String) : Except Unit (List RPiece) :=
  (scan (escQuotes fmt).data).mapM evalPiece

/-- `compile` with a malformed template collapsed to no pieces (convenience
for stating concrete evaluations). -/
def compileD (fmt : String) : List RPiece :=
  match compile fmt with
  | Except.ok ps => ps
  | Except.error _ => []

/-- Evaluation of the compiled render function's body
`"lit0" + (tokens[n1](req, res, a1) || "-") + "lit1" + ...` against a token
registry.  Looking up an unregistered name yields `undefined`, and applying
it — like applying a registered non-function entry — throws a `TypeError`;
an extractor's own exception propagates.  Either is `Except.error ()`.
(Applying a stored render function such as `dev` through this path passes
it `(req, res, arg)` in place of `(tokens, req, res)` and it, too, throws a
`TypeError` on its string argument.) -/
def renderPieces (tokens : Registry) (req : Req) (res : Res) : List RPiece → Except Unit String
  | [] => Except.ok ""
  | RPiece.lit s :: rest =>
    (renderPieces tokens req res rest).map (fun t => s ++ t)
  | RPiece.tok name arg :: rest =>
    match tokens name with
    | some (RegEntry.efun f) =>
      match f req res arg with
      | Except.ok v =>
        (renderPieces tokens req res rest).map
          (fun t => (if jsTruthy v then jsToStr v else "-") ++ t)
      | Except.error _ => Except.error ()
    | _ => Except.error ()

/-- Whether a character list contains a token reference, i.e. an occurrence
of `:` followed by at least two `[-\w]` characters. -/
def hasTokenRef : List Char → Bool
  | [] => false
  | c :: rest =>
    (c == ':' && decide (2 ≤ (rest.takeWhile isWordDash).length)) || hasTokenRef rest

/-- Outcome of evaluating `fmt(exports, req, res)` on line 89: an exception,
a `null`/`undefined` result, or a string line. -/
inductive RenderResult where
  | rthrow
  | rnull
  | rline (s : String)
deriving DecidableEq

/-- The per-cycle behaviour of `skip(req, res)` and `fmt(exports, req, res)`
at trigger time (the request/response pair is fixed within a cycle). -/
structure Cfg where
  skip : Bool
  render : RenderResult
deriving DecidableEq

/-- Per-cycle observable state: whether `logRequest` is still subscribed to
the response's `finish` and `close` events (lines 99-100), how many times
the render function was invoked, the strings handed to `stream.write`, and
how many exceptions escaped `logRequest`. -/
structure CycleState where
  onFinish : Bool
  onClose : Bool
  renders : Nat
  writes : List String
  exns : Nat
deriving DecidableEq

/-- `logRequest` (lines 85-92): unsubscribe both listeners, return if
`skip(req, res)`, invoke the render function, return if the line is
`null`/`undefined`, else write the line with a trailing newline.  An
exception thrown by the render function escapes (there is no handler). -/
def logRequest (cfg : Cfg) (s : CycleState) : CycleState :=
  let s1 : CycleState := { s with onFinish := false, onClose := false }
  if cfg.skip then s1
  else
    let s2 : CycleState := { s1 with renders := s1.renders + 1 }
    match cfg.render with
    | RenderResult.rthrow => { s2 with exns := s2.exns + 1 }
    | RenderResult.rnull => s2
    | RenderResult.rline line => { s2 with writes := s2.writes ++ [line ++ "\n"] }

/-- A completion signal from the framework. -/
inductive Ev where
  | finish
  | close
deriving DecidableEq

/-- Delivery of one completion signal: `logRequest` runs iff it is still
subscribed to that signal. -/
def fireEvent (cfg : Cfg) (s : CycleState) : Ev → CycleState
  | Ev.finish => if s.onFinish then logRequest cfg s else s
  | Ev.close => if s.onClose then logRequest cfg s else s

/-- Cycle state right after the deferred-mode subscriptions of lines 99-100:
both listeners installed, nothing rendered or written. -/
def armedState : CycleState :=
  { onFinish := true, onClose := true, renders := 0, writes := [], exns := 0 }

/-- Delivery of a sequence of completion signals to an armed cycle. -/
def runEvents (cfg : Cfg) (evs : List Ev) : CycleState :=
  List.foldl (fireEvent cfg) armedState evs

/-- Bridges the compiled render function into a cycle's behaviour: the
outcome of `fmt(exports, req, res)` for a template compiled to `pieces`
(line 89; a compiled template never returns `null`). -/
def renderOutcome (r : Registry) (req : Req) (res : Res) (pieces : List RPiece) : RenderResult :=
  match renderPieces r req res pieces with
  | Except.ok s => RenderResult.rline s
  | Except.error _ => RenderResult.rthrow

/-- The batching buffer's observable state (lines 56-77): the pending `buf`
array and the strings written to the underlying `realStream`. -/
structure BufState where
  buf : List String
  sinkWrites : List String
deriving DecidableEq

/-- An event hitting the batched writer: the swapped stream's `write`
(lines 72-76) or an elapse of the flush interval (lines 64-69). -/
inductive BufEv where
  | append (s : String)
  | tick
deriving DecidableEq

/-- One batched-writer step: `write` pushes onto `buf`; the interval
callback, when `buf` is nonempty, writes `buf.join('')` to the real stream
and clears `buf`. -/
def bufStep (st : BufState) : BufEv → BufState
  | BufEv.append s => { st with buf := st.buf ++ [s] }
  | BufEv.tick =>
    if st.buf.isEmpty then st
    else { buf := [], sinkWrites := st.sinkWrites ++ [String.join st.buf] }

/-- The batched writer's state after a sequence of events, starting from an
empty buffer. -/
def bufRun (evs : List BufEv) : BufState :=
  List.foldl bufStep { buf := [], sinkWrites := [] } evs

/-- A GET request fixture. -/
def reqGET : Req :=
  { method := "GET", url := "/" }

/-- A response fixture: status 404, headers sent. -/
def res404 : Res :=
  { statusCode := 404, headersSent := true }

/-- The inline format string `'\x7b"m":":method","s":":status"\x7d'`. -/
def c4Fmt : String :=
  "\x7b\"m\":\":method\",\"s\":\":status\"\x7d"

/-- An extractor returning the truthy string `"hello"`. -/
def helloTok : Extractor :=
  fun _ _ _ => Except.ok (JSVal.vStr "hello")

/-- An extractor returning the empty string — a falsy but non-null value. -/
def emptyStrTok : Extractor :=
  fun _ _ _ => Except.ok (JSVal.vStr "")

/-- An extractor that throws. -/
def throwTok : Extractor :=
  fun _ _ _ => Except.error ()

/-- A registry with the single token `xx` bound to `helloTok`. -/
def helloReg : Registry :=
  tokenReg emptyRegistry "xx" helloTok

/-- A registry with the single token `xx` bound to `emptyStrTok`. -/
def emptyStrReg : Registry :=
  tokenReg emptyRegistry "xx" emptyStrTok

/-- A registry with the single token `xx` bound to `throwTok`. -/
def throwReg : Registry :=
  tokenReg emptyRegistry "xx" throwTok

/-! ## Helper lemmas -/

theorem logRequest_listeners_off (cfg : Cfg) (s : CycleState) :
    (logRequest cfg s).onFinish = false ∧ (logRequest cfg s).onClose = false := by
  unfold logRequest
  by_cases h : cfg.skip
  · simp [h]
  · cases cfg.render <;> simp [h]

theorem fireEvent_stuck (cfg : Cfg) (s : CycleState) (e : Ev)
    (hF : s.onFinish = false) (hC : s.onClose = false) : fireEvent cfg s e = s := by
  cases e <;> simp [fireEvent, hF, hC]

theorem foldl_fireEvent_stuck (cfg : Cfg) :
    ∀ (evs : List Ev) (s : CycleState), s.onFinish = false → s.onClose = false →
      List.foldl (fireEvent cfg) s evs = s
  | [], _, _, _ => rfl
  | e :: evs, s, hF, hC => by
    rw [List.foldl_cons, fireEvent_stuck cfg s e hF hC]
    exact foldl_fireEvent_stuck cfg evs s hF hC

/-- Every delivery sequence leaves an armed cycle either untouched (no
signal fired) or in the state produced by a single `logRequest` run. -/
theorem runEvents_dichotomy (cfg : Cfg) (evs : List Ev) :
    runEvents cfg evs = armedState ∨ runEvents cfg evs = logRequest cfg armedState := by
  cases evs with
  | nil => exact Or.inl rfl
  | cons e evs =>
    right
    have h1 : fireEvent cfg armedState e = logRequest cfg armedState := by
      cases e <;> simp [fireEvent, armedState]
    have h2 := logRequest_listeners_off cfg armedState
    calc runEvents cfg (e :: evs)
        = List.foldl (fireEvent cfg) (fireEvent cfg armedState e) evs := rfl
      _ = List.foldl (fireEvent cfg) (logRequest cfg armedState) evs := by rw [h1]
      _ = logRequest cfg armedState := foldl_fireEvent_stuck cfg evs _ h2.1 h2.2

/-! ## Claim theorems -/

/-- C1: for every request/response cycle, the compiled render function is
invoked at most once and at most one write reaches the sink, regardless of
which and how many completion signals (`finish`/`close`) fire, because
`logRequest` unsubscribes both listeners as soon as it first runs. -/
theorem claim1_at_most_one_render (cfg : Cfg) (evs : List Ev) :
    (runEvents cfg evs).renders ≤ 1 ∧ (runEvents cfg evs).writes.length ≤ 1 := by
  rcases runEvents_dichotomy cfg evs with h | h <;> rw [h]
  · simp [armedState]
  · unfold logRequest
    by_cases hs : cfg.skip
    · simp [hs, armedState]
    · cases cfg.render <;> simp [hs, armedState]

/-- C6: when the caller-supplied skip predicate holds at trigger time, the
cycle performs no render and hands nothing to the sink, however the
completion signals fire. -/
theorem claim6_skip_no_write (cfg : Cfg) (evs : List Ev) (h : cfg.skip = true) :
    (runEvents cfg evs).renders = 0 ∧ (runEvents cfg evs).writes = [] := by
  rcases runEvents_dichotomy cfg evs with hd | hd <;> rw [hd]
  · simp [armedState]
  · unfold logRequest
    simp [h, armedState]

/-- Witness for C6 at a concrete skipping cycle with both signals firing. -/
theorem claim6_witness :
    (Cfg.mk true (RenderResult.rline "x")).skip = true ∧
    (runEvents (Cfg.mk true (RenderResult.rline "x")) [Ev.finish, Ev.close]).renders = 0 ∧
    (runEvents (Cfg.mk true (RenderResult.rline "x")) [Ev.finish, Ev.close]).writes = [] :=
  ⟨rfl, claim6_skip_no_write (Cfg.mk true (RenderResult.rline "x")) [Ev.finish, Ev.close] rfl⟩

/-- C7: in a cycle that reaches the `LOGGED` transition (the render ran),
a `null`/absent render result writes nothing to the sink, and a string
result `s` hands exactly `s` followed by a single newline to the sink. -/
theorem claim7_logged_write (cfg : Cfg) (evs : List Ev) (hskip : cfg.skip = false)
    (hlog : (runEvents cfg evs).renders = 1) :
    (runEvents cfg evs).writes =
      match cfg.render with
      | RenderResult.rline s => [s ++ "\n"]
      | _ => [] := by
  rcases runEvents_dichotomy cfg evs with hd | hd <;> rw [hd] at hlog ⊢
  · simp [armedState] at hlog
  · unfold logRequest
    cases cfg.render <;> simp [hskip, armedState]

/-- Witness for C7: a cycle rendering the line `"hello"` writes exactly
`"hello\n"`. -/
theorem claim7_witness :
    (Cfg.mk false (RenderResult.rline "hello")).skip = false ∧
    (runEvents (Cfg.mk false (RenderResult.rline "hello")) [Ev.finish]).renders = 1 ∧
    (runEvents (Cfg.mk false (RenderResult.rline "hello")) [Ev.finish]).writes = ["hello\n"] :=
  ⟨rfl, by decide,
    claim7_logged_write (Cfg.mk false (RenderResult.rline "hello")) [Ev.finish] rfl (by decide)⟩

theorem foldl_bufStep_appends :
    ∀ (lines : List String) (st : BufState),
      List.foldl bufStep st (lines.map BufEv.append) =
        { st with buf := st.buf ++ lines }
  | [], st => by simp
  | l :: lines, st => by
    rw [List.map_cons, List.foldl_cons, foldl_bufStep_appends lines]
    simp [bufStep]

/-- C8: with the batched writer, appending the given lines within one flush
interval writes nothing to the destination; the next interval tick performs
exactly one destination write, containing the concatenation of the lines in
append order, and leaves the buffer empty. -/
theorem claim8_batched_flush (lines : List String) (h : lines ≠ []) :
    (bufRun (lines.map BufEv.append)).sinkWrites = [] ∧
    bufRun (lines.map BufEv.append ++ [BufEv.tick]) =
      { buf := [], sinkWrites := [String.join lines] } := by
  have hrun : bufRun (lines.map BufEv.append) = { buf := lines, sinkWrites := [] } := by
    unfold bufRun
    rw [foldl_bufStep_appends]
    simp
  constructor
  · rw [hrun]
  · unfold bufRun
    rw [List.foldl_append]
    show bufStep (bufRun (lines.map BufEv.append)) BufEv.tick = _
    rw [hrun]
    simp [bufStep, List.isEmpty_iff, h]

/-- Witness for C8 with two concrete lines. -/
theorem claim8_witness :
    (["a\n", "b\n"] : List String) ≠ [] ∧
    (bufRun ([ "a\n", "b\n"].map BufEv.append)).sinkWrites = [] ∧
    bufRun (["a\n", "b\n"].map BufEv.append ++ [BufEv.tick]) =
      { buf := [], sinkWrites := ["a\nb\n"] } := by
  refine ⟨by decide, ?_⟩
  have h := claim8_batched_flush ["a\n", "b\n"] (by decide)
  simpa using h

theorem isWordDash_ne_quote (c : Char) (h : isWordDash c = true) : c ≠ '"' := by
  intro he
  subst he
  exact absurd h (by decide)

theorem escQuotesL_id : ∀ l : List Char, (∀ c ∈ l, c ≠ '"') → escQuotesL l = l
  | [], _ => rfl
  | c :: rest, h => by
    have hc : c ≠ '"' := h c (List.mem_cons_self c rest)
    simp only [escQuotesL, if_neg hc]
    rw [escQuotesL_id rest (fun d hd => h d (List.mem_cons_of_mem c hd))]

theorem compile_single_token (name : String) (h2 : 2 ≤ name.length)
    (hw : ∀ c ∈ name.data, isWordDash c = true) :
    compile (":" ++ name) =
      Except.ok [RPiece.lit "", RPiece.tok name "undefined", RPiece.lit ""] := by
  have hq : ∀ c ∈ ':' :: name.data, c ≠ '"' := by
    intro c hc
    rcases List.mem_cons.mp hc with rfl | hc
    · decide
    · exact isWordDash_ne_quote c (hw c hc)
  have htake : name.data.takeWhile isWordDash = name.data :=
    List.takeWhile_eq_self_iff.mpr hw
  have hdrop : name.data.dropWhile isWordDash = [] :=
    List.dropWhile_eq_nil_iff.mpr hw
  have hesc : (escQuotes (":" ++ name)).data = ':' :: name.data := by
    show escQuotesL (":" ++ name).data = ':' :: name.data
    rw [show (":" ++ name).data = ':' :: name.data from rfl, escQuotesL_id _ hq]
  have hscan : scan (':' :: name.data) =
      [Piece.lit "", Piece.tok name "undefined", Piece.lit ""] := by
    show scanAux (name.data.length + 1) [] (':' :: name.data) = _
    rw [scanAux]
    rw [if_pos ⟨rfl, by rw [htake]; exact h2⟩]
    rw [hdrop, htake]
    show Piece.lit "" :: Piece.tok name "undefined" :: scanAux name.data.length [] [] = _
    rw [scanAux]
    rfl
  unfold compile
  rw [hesc, hscan]
  rfl

theorem compileD_single_token (name : String) (h2 : 2 ≤ name.length)
    (hw : ∀ c ∈ name.data, isWordDash c = true) :
    compileD (":" ++ name) = [RPiece.lit "", RPiece.tok name "undefined", RPiece.lit ""] := by
  unfold compileD
  rw [compile_single_token name h2 hw]

theorem renderPieces_single_tok (r : Registry) (req : Req) (res : Res)
    (name arg : String) (f : Extractor) (hr : r name = some (RegEntry.efun f)) :
    renderPieces r req res [RPiece.lit "", RPiece.tok name arg, RPiece.lit ""] =
      match f req res arg with
      | Except.ok v => Except.ok (if jsTruthy v then jsToStr v else "-")
      | Except.error _ => Except.error () := by
  cases hfv : f req res arg with
  | ok v => simp [renderPieces, hr, hfv, Except.map]
  | error e => simp [renderPieces, hr, hfv, Except.map]

theorem renderPieces_single_tok_notfun (r : Registry) (req : Req) (res : Res)
    (name arg : String)
    (hr : ∀ f : Extractor, r name ≠ some (RegEntry.efun f)) :
    renderPieces r req res [RPiece.lit "", RPiece.tok name arg, RPiece.lit ""] =
      Except.error () := by
  simp only [renderPieces]
  match h : r name with
  | none => rfl
  | some (RegEntry.estr s) => rfl
  | some (RegEntry.efun f) => exact absurd h (hr f)

/-- Counterexample to C2 as stated: a registered token whose extractor
returns the non-null empty string renders `"-"` rather than the value, and
a throwing or unregistered token makes the render throw rather than render
`"-"`. -/
theorem claim2_counterexample :
    renderPieces emptyStrReg reqGET res404 (compileD ":xx") = Except.ok "-" ∧
    (Except.ok "-" : Except Unit String) ≠ Except.ok "" ∧
    renderPieces throwReg reqGET res404 (compileD ":xx") = Except.error () ∧
    renderPieces emptyRegistry reqGET res404 (compileD ":xx") = Except.error () := by
  decide

/-- C2 (amended): for a registered token `T`, the template `":T"` renders
the string coercion of the extractor's value when that value is truthy and
the dash `"-"` when it is falsy (null, undefined, the empty string, `0`, or
`false`); when `T` is unregistered or its extractor throws, rendering
throws instead of producing `"-"`. -/
theorem claim2_token_substitution (r : Registry) (name : String) (req : Req) (res : Res)
    (h2 : 2 ≤ name.length) (hw : ∀ c ∈ name.data, isWordDash c = true) :
    (∀ (f : Extractor) (v : JSVal),
      r name = some (RegEntry.efun f) → f req res "undefined" = Except.ok v →
      renderPieces r req res (compileD (":" ++ name)) =
        Except.ok (if jsTruthy v then jsToStr v else "-")) ∧
    (r name = none →
      renderPieces r req res (compileD (":" ++ name)) = Except.error ()) ∧
    (∀ f : Extractor,
      r name = some (RegEntry.efun f) → f req res "undefined" = Except.error () →
      renderPieces r req res (compileD (":" ++ name)) = Except.error ()) := by
  rw [compileD_single_token name h2 hw]
  refine ⟨?_, ?_, ?_⟩
  · intro f v hr hv
    rw [renderPieces_single_tok r req res name "undefined" f hr, hv]
  · intro hr
    refine renderPieces_single_tok_notfun r req res name "undefined" ?_
    intro f hf
    rw [hr] at hf
    exact Option.noConfusion hf
  · intro f hr hv
    rw [renderPieces_single_tok r req res name "undefined" f hr, hv]

/-- Witness for C2 at the token `xx` bound to an extractor returning the
truthy string `"hello"`. -/
theorem claim2_witness :
    (2 ≤ ("xx" : String).length ∧ (∀ c ∈ ("xx" : String).data, isWordDash c = true) ∧
      helloReg "xx" = some (RegEntry.efun helloTok) ∧
      helloTok reqGET res404 "undefined" = Except.ok (JSVal.vStr "hello")) ∧
    renderPieces helloReg reqGET res404 (compileD (":" ++ "xx")) = Except.ok "hello" := by
  refine ⟨⟨by decide, by decide, rfl, rfl⟩, ?_⟩
  exact (claim2_token_substitution helloReg "xx" reqGET res404 (by decide) (by decide)).1
    helloTok (JSVal.vStr "hello") rfl rfl

/-- C9 (implicit): a registered token whose extractor returns a falsy but
non-null printable value — the empty string, the number `0`, or `false` —
renders as the dash placeholder `"-"`, because the generated substitution
is `(... || "-")` rather than a null check. -/
theorem claim9_falsy_renders_dash (r : Registry) (name : String) (req : Req) (res : Res)
    (f : Extractor) (v : JSVal)
    (h2 : 2 ≤ name.length) (hw : ∀ c ∈ name.data, isWordDash c = true)
    (hr : r name = some (RegEntry.efun f))
    (hv : f req res "undefined" = Except.ok v)
    (hfalsy : v = JSVal.vStr "" ∨ v = JSVal.vNum 0 ∨ v = JSVal.vBool false) :
    renderPieces r req res (compileD (":" ++ name)) = Except.ok "-" := by
  rw [compileD_single_token name h2 hw,
    renderPieces_single_tok r req res name "undefined" f hr, hv]
  rcases hfalsy with rfl | rfl | rfl <;> rfl

/-- Witness for C9: the token `xx` bound to an extractor returning the
empty string renders as `"-"`. -/
theorem claim9_witness :
    (2 ≤ ("xx" : String).length ∧ (∀ c ∈ ("xx" : String).data, isWordDash c = true) ∧
      emptyStrReg "xx" = some (RegEntry.efun emptyStrTok) ∧
      emptyStrTok reqGET res404 "undefined" = Except.ok (JSVal.vStr "")) ∧
    renderPieces emptyStrReg reqGET res404 (compileD (":" ++ "xx")) = Except.ok "-" := by
  refine ⟨⟨by decide, by decide, rfl, rfl⟩, ?_⟩
  exact claim9_falsy_renders_dash emptyStrReg "xx" reqGET res404 emptyStrTok
    (JSVal.vStr "") (by decide) (by decide) rfl rfl (Or.inl rfl)

theorem renderPieces_ok_of_registered (r : Registry) (req : Req) (res : Res) :
    ∀ pieces : List RPiece,
      (∀ name arg, RPiece.tok name arg ∈ pieces →
        ∃ (f : Extractor) (v : JSVal),
          r name = some (RegEntry.efun f) ∧ f req res arg = Except.ok v) →
      ∃ s, renderPieces r req res pieces = Except.ok s
  | [], _ => ⟨"", rfl⟩
  | RPiece.lit s :: rest, h => by
    obtain ⟨t, ht⟩ := renderPieces_ok_of_registered r req res rest
      (fun name arg hm => h name arg (List.mem_cons_of_mem _ hm))
    exact ⟨s ++ t, by simp [renderPieces, ht, Except.map]⟩
  | RPiece.tok name arg :: rest, h => by
    obtain ⟨f, v, hr, hv⟩ := h name arg (List.mem_cons_self _ _)
    obtain ⟨t, ht⟩ := renderPieces_ok_of_registered r req res rest
      (fun n a hm => h n a (List.mem_cons_of_mem _ hm))
    exact ⟨(if jsTruthy v then jsToStr v else "-") ++ t,
      by simp [renderPieces, hr, hv, ht, Except.map]⟩

/-- Counterexample to C3 as stated: a compiled template referencing the
unregistered token `zz` makes `logRequest` propagate a `TypeError` out of
the lifecycle-binder boundary when the `finish` signal fires. -/
theorem claim3_counterexample :
    (runEvents
      { skip := false,
        render := renderOutcome baseRegistry reqGET res404 (compileD ":zz") }
      [Ev.finish]).exns = 1 := by
  decide

/-- C3 (amended): the logging step is not exception-safe in general — an
unregistered token or throwing extractor propagates an exception out of
`logRequest` — but when every token reference in the compiled template
resolves to a registered extractor that returns normally, no exception
escapes the boundary for any sequence of completion signals: nullish token
values degrade to the dash placeholder instead of aborting the line. -/
theorem claim3_no_escape (r : Registry) (req : Req) (res : Res)
    (pieces : List RPiece) (skip : Bool) (evs : List Ev)
    (hreg : ∀ name arg, RPiece.tok name arg ∈ pieces →
      ∃ (f : Extractor) (v : JSVal),
        r name = some (RegEntry.efun f) ∧ f req res arg = Except.ok v) :
    (runEvents { skip := skip, render := renderOutcome r req res pieces } evs).exns = 0 := by
  obtain ⟨s, hs⟩ := renderPieces_ok_of_registered r req res pieces hreg
  have hout : renderOutcome r req res pieces = RenderResult.rline s := by
    unfold renderOutcome
    rw [hs]
  rw [hout]
  rcases runEvents_dichotomy { skip := skip, render := RenderResult.rline s } evs
    with hd | hd <;> rw [hd]
  · rfl
  · unfold logRequest
    by_cases h : skip <;> simp [h, armedState]

/-- Witness for C3: the template `":xx"` over a registry binding `xx` to a
normally-returning extractor lets both signals fire with no escaping
exception. -/
theorem claim3_witness :
    (∀ name arg, RPiece.tok name arg ∈ compileD ":xx" →
      ∃ (f : Extractor) (v : JSVal),
        helloReg name = some (RegEntry.efun f) ∧ f reqGET res404 arg = Except.ok v) ∧
    (runEvents
      { skip := false,
        render := renderOutcome helloReg reqGET res404 (compileD ":xx") }
      [Ev.finish, Ev.close]).exns = 0 := by
  have hpieces : compileD ":xx" =
      [RPiece.lit "", RPiece.tok "xx" "undefined", RPiece.lit ""] := by decide
  have hreg : ∀ name arg, RPiece.tok name arg ∈ compileD ":xx" →
      ∃ (f : Extractor) (v : JSVal),
        helloReg name = some (RegEntry.efun f) ∧ f reqGET res404 arg = Except.ok v := by
    intro name arg hm
    rw [hpieces] at hm
    simp only [List.mem_cons, List.not_mem_nil, or_false] at hm
    rcases hm with hm | hm | hm
    · exact absurd hm (by simp)
    · obtain ⟨rfl, rfl⟩ : name = "xx" ∧ arg = "undefined" := by
        cases hm
        exact ⟨rfl, rfl⟩
      exact ⟨helloTok, JSVal.vStr "hello", rfl, rfl⟩
    · exact absurd hm (by simp)
  exact ⟨hreg,
    claim3_no_escape helloReg reqGET res404 (compileD ":xx") false [Ev.finish, Ev.close] hreg⟩

theorem escQuotesL_cons_quote (rest : List Char) :
    escQuotesL ('"' :: rest) = '\\' :: '"' :: escQuotesL rest := by
  rw [escQuotesL, if_pos rfl]

theorem escQuotesL_cons_other (c : Char) (rest : List Char) (h : c ≠ '"') :
    escQuotesL (c :: rest) = c :: escQuotesL rest := by
  rw [escQuotesL, if_neg h]

theorem jsUnescapeAux_backslash (d : Char) (rest : List Char) :
    jsUnescapeAux ('\\' :: d :: rest) =
      if d = '\n' then jsUnescapeAux rest
      else (jsUnescapeAux rest).map (fun l => jsEscChar d :: l) := by
  rw [jsUnescapeAux.eq_def]
  simp

theorem jsUnescapeAux_cons_other (c : Char) (rest : List Char) (h : c ≠ '\\') :
    jsUnescapeAux (c :: rest) =
      if c = '\n' ∨ c = '\x0d' ∨ c = '"' then none
      else (jsUnescapeAux rest).map (fun l => c :: l) := by
  rw [jsUnescapeAux.eq_def]
  simp [h]

theorem takeWhile_escQuotesL :
    ∀ l : List Char, (escQuotesL l).takeWhile isWordDash = l.takeWhile isWordDash
  | [] => rfl
  | c :: rest => by
    by_cases hc : c = '"'
    · subst hc
      rw [escQuotesL_cons_quote]
      rw [List.takeWhile_cons, List.takeWhile_cons, List.takeWhile_cons]
      rw [if_neg (by decide : ¬(isWordDash '\\' = true))]
      rw [if_neg (by decide : ¬(isWordDash '"' = true))]
    · rw [escQuotesL_cons_other c rest hc]
      rw [List.takeWhile_cons, List.takeWhile_cons]
      by_cases hw : isWordDash c
      · rw [if_pos hw, if_pos hw, takeWhile_escQuotesL rest]
      · rw [if_neg hw, if_neg hw]

theorem hasTokenRef_escQuotesL :
    ∀ l : List Char, hasTokenRef l = false → hasTokenRef (escQuotesL l) = false
  | [], _ => rfl
  | c :: rest, h => by
    simp only [hasTokenRef, Bool.or_eq_false_iff] at h
    have hrest := hasTokenRef_escQuotesL rest h.2
    by_cases hc : c = '"'
    · subst hc
      simp only [escQuotesL, if_pos rfl]
      simp [hasTokenRef, hrest]
    · simp only [escQuotesL, if_neg hc]
      simp only [hasTokenRef, Bool.or_eq_false_iff]
      refine ⟨?_, hrest⟩
      rw [takeWhile_escQuotesL rest]
      exact h.1

theorem jsUnescapeAux_escQuotesL :
    ∀ l : List Char, (∀ c ∈ l, c ≠ '\\' ∧ c ≠ '\n' ∧ c ≠ '\x0d') →
      jsUnescapeAux (escQuotesL l) = some l
  | [], _ => rfl
  | c :: rest, h => by
    have hc := h c (List.mem_cons_self c rest)
    have hrest := jsUnescapeAux_escQuotesL rest
      (fun d hd => h d (List.mem_cons_of_mem c hd))
    by_cases hq : c = '"'
    · subst hq
      rw [escQuotesL_cons_quote]
      rw [jsUnescapeAux_backslash]
      rw [if_neg (by decide : ¬(('"' : Char) = '\n'))]
      rw [hrest]
      rfl
    · rw [escQuotesL_cons_other c rest hq]
      rw [jsUnescapeAux_cons_other c (escQuotesL rest) hc.1]
      rw [if_neg (by simp [hc.2.1, hc.2.2, hq])]
      rw [hrest]
      rfl

theorem scanAux_no_ref :
    ∀ (fuel : Nat) (l acc : List Char), l.length ≤ fuel → hasTokenRef l = false →
      scanAux fuel acc l = [Piece.lit (String.mk (acc.reverse ++ l))]
  | _, [], acc, _, _ => by simp [scanAux]
  | 0, c :: rest, _, hlen, _ => by simp at hlen
  | fuel + 1, c :: rest, acc, hlen, href => by
    simp only [hasTokenRef, Bool.or_eq_false_iff, Bool.and_eq_false_iff] at href
    have hcond : ¬(c = ':' ∧ 2 ≤ (rest.takeWhile isWordDash).length) := by
      rcases href.1 with hb | hb
      · intro hand
        rw [hand.1] at hb
        exact absurd hb (by decide)
      · intro hand
        rw [decide_eq_false_iff_not] at hb
        exact hb hand.2
    rw [scanAux, if_neg hcond]
    rw [scanAux_no_ref fuel rest (c :: acc) (Nat.le_of_succ_le_succ hlen) href.2]
    simp

/-- Counterexample to C5 as stated: the two-character-escape template
`"a\nb"` (backslash, no token reference) compiles to a render function
returning `"a<LF>b"` — the backslash participates in a string-literal
escape in the generated source, so the literal text is not passed through
unmodified. -/
theorem claim5_counterexample :
    hasTokenRef ("a\\nb" : String).data = false ∧
    compile "a\\nb" = Except.ok [RPiece.lit "a\nb"] ∧
    renderPieces emptyRegistry reqGET res404 (compileD "a\\nb") = Except.ok "a\nb" ∧
    ("a\nb" : String) ≠ "a\\nb" := by
  decide

/-- C5 (amended): a template with no token references and no backslash or
line-terminator characters compiles to a single literal piece equal to the
template, and the compiled render function returns the template itself for
every registry, request and response — literal text, including double
quotes, passes through unmodified. -/
theorem claim5_literal_passthrough (t : String)
    (href : hasTokenRef t.data = false)
    (hchar : ∀ c ∈ t.data, c ≠ '\\' ∧ c ≠ '\n' ∧ c ≠ '\x0d') :
    compile t = Except.ok [RPiece.lit t] ∧
    ∀ (r : Registry) (req : Req) (res : Res),
      renderPieces r req res [RPiece.lit t] = Except.ok t := by
  have hscan : scan (escQuotesL t.data) = [Piece.lit (String.mk (escQuotesL t.data))] := by
    have h := scanAux_no_ref (escQuotesL t.data).length (escQuotesL t.data) []
      le_rfl (hasTokenRef_escQuotesL t.data href)
    simpa [scan] using h
  constructor
  · have hun : jsUnescape (String.mk (escQuotesL t.data)) = some t := by
      unfold jsUnescape
      rw [show (String.mk (escQuotesL t.data)).data = escQuotesL t.data from rfl]
      rw [jsUnescapeAux_escQuotesL t.data hchar]
      rfl
    unfold compile
    rw [show (escQuotes t).data = escQuotesL t.data from rfl, hscan]
    simp [List.mapM, List.mapM.loop, evalPiece, hun]
  · intro r req res
    simp [renderPieces, Except.map]

/-- Witness for C5 on a quote-containing literal template with a
one-character colon run (not a token reference). -/
theorem claim5_witness :
    (hasTokenRef ("ab \"cd\" :e f" : String).data = false ∧
      ∀ c ∈ ("ab \"cd\" :e f" : String).data, c ≠ '\\' ∧ c ≠ '\n' ∧ c ≠ '\x0d') ∧
    compile "ab \"cd\" :e f" = Except.ok [RPiece.lit "ab \"cd\" :e f"] ∧
    renderPieces emptyRegistry reqGET res404 [RPiece.lit "ab \"cd\" :e f"] =
      Except.ok "ab \"cd\" :e f" := by
  refine ⟨⟨by decide, by decide⟩, ?_, ?_⟩
  · exact (claim5_literal_passthrough "ab \"cd\" :e f" (by decide) (by decide)).1
  · exact (claim5_literal_passthrough "ab \"cd\" :e f" (by decide) (by decide)).2
      emptyRegistry reqGET res404

/-- Counterexample to C4 as stated: with the inline format
`'\x7b"m":":method","s":":status"\x7d'`, a GET request answered 404 (headers
sent) hands the sink the line `\x7b"m":"GET","s":"404"\x7d` + newline — the
`404` is surrounded by the template's literal quotes, so the claimed line
`\x7b"m":"GET","s":404\x7d` is not what is written. -/
theorem claim4_counterexample :
    (runEvents
      { skip := false,
        render := renderOutcome baseRegistry reqGET res404 (compileD c4Fmt) }
      [Ev.finish]).writes = ["\x7b\"m\":\"GET\",\"s\":\"404\"\x7d\n"] ∧
    ("\x7b\"m\":\"GET\",\"s\":\"404\"\x7d\n" : String) ≠ "\x7b\"m\":\"GET\",\"s\":404\x7d\n" := by
  decide

/-- C4 (amended): the inline format `'\x7b"m":":method","s":":status"\x7d'`
compiles to the literal/token alternation below, renders
`\x7b"m":"GET","s":"404"\x7d` for a GET request answered 404 with headers
sent, and the cycle hands exactly that line plus a single newline to the
sink. -/
theorem claim4_inline_format_line :
    compile c4Fmt = Except.ok
      [RPiece.lit "\x7b\"m\":\"", RPiece.tok "method" "undefined",
       RPiece.lit "\",\"s\":\"", RPiece.tok "status" "undefined",
       RPiece.lit "\"\x7d"] ∧
    renderPieces baseRegistry reqGET res404 (compileD c4Fmt) =
      Except.ok "\x7b\"m\":\"GET\",\"s\":\"404\"\x7d" ∧
    (runEvents
      { skip := false,
        render := renderOutcome baseRegistry reqGET res404 (compileD c4Fmt) }
      [Ev.finish]).writes = ["\x7b\"m\":\"GET\",\"s\":\"404\"\x7d\n"] := by
  decide

/-- C10 (implicit): `exports.token` and `exports.format` write to the same
namespace, and the compiled render looks tokens up in that same namespace;
registering a format string and a token under one name overwrites one with
the other, with the later registration visible to both the token-lookup
path and the format-name-resolution path (a string entry found by the token
path is not callable, so rendering it throws; a function entry found by the
resolution path is returned as the format). -/
theorem claim10_shared_namespace (r : Registry) (name : String) (fn : Extractor)
    (s : String) (req : Req) (res : Res) (arg : String) (hs : s ≠ "") :
    (formatReg (tokenReg r name fn) name (RegEntry.estr s)) name
      = some (RegEntry.estr s) ∧
    (tokenReg (formatReg r name (RegEntry.estr s)) name fn) name
      = some (RegEntry.efun fn) ∧
    resolveFmt (formatReg (tokenReg r name fn) name (RegEntry.estr s)) (some name)
      = some (RegEntry.estr s) ∧
    resolveFmt (tokenReg (formatReg r name (RegEntry.estr s)) name fn) (some name)
      = some (RegEntry.efun fn) ∧
    renderPieces (formatReg (tokenReg r name fn) name (RegEntry.estr s)) req res
      [RPiece.tok name arg] = Except.error () ∧
    renderPieces (tokenReg (formatReg r name (RegEntry.estr s)) name fn) req res
      [RPiece.tok name arg] =
      (match fn req res arg with
       | Except.ok v => Except.ok (if jsTruthy v then jsToStr v else "-")
       | Except.error _ => Except.error ()) := by
  have h1 : (formatReg (tokenReg r name fn) name (RegEntry.estr s)) name
      = some (RegEntry.estr s) := by
    simp [formatReg, tokenReg, regSet]
  have h2 : (tokenReg (formatReg r name (RegEntry.estr s)) name fn) name
      = some (RegEntry.efun fn) := by
    simp [formatReg, tokenReg, regSet]
  refine ⟨h1, h2, ?_, ?_, ?_, ?_⟩
  · simp [resolveFmt, h1, entryTruthy, hs]
  · simp [resolveFmt, h2, entryTruthy]
  · simp [renderPieces, h1]
  · cases hfv : fn req res arg with
    | ok v => simp [renderPieces, h2, hfv, Except.map]
    | error e => simp [renderPieces, h2, hfv, Except.map]

/-- Witness for C10 with the name `xx`, the extractor `helloTok` and the
format string `"T"`. -/
theorem claim10_witness :
    ("T" : String) ≠ "" ∧
    resolveFmt (formatReg (tokenReg emptyRegistry "xx" helloTok) "xx" (RegEntry.estr "T"))
      (some "xx") = some (RegEntry.estr "T") ∧
    renderPieces (tokenReg (formatReg emptyRegistry "xx" (RegEntry.estr "T")) "xx" helloTok)
      reqGET res404 [RPiece.tok "xx" "undefined"] = Except.ok "hello" := by
  have h := claim10_shared_namespace emptyRegistry "xx" helloTok "T" reqGET res404
    "undefined" (by decide)
  exact ⟨by decide, h.2.2.1, h.2.2.2.2.2⟩
